import Mathlib

/-!
Shallow embedding of the `notion` crate's backend layer (src/lib.rs,
src/backend/mod.rs, src/backend/reqwest_impl.rs, src/backend/http_req_impl.rs).

External crates (reqwest, http_req, serde_json, the http header types) are not
part of this repository; their effects are modelled as explicit oracle
arguments: the HTTP round trip as an outcome value, JSON parsing and
serialization as function arguments, URI parsing as a function argument.
A panicking operation in the source (an `unwrap`) is modelled by an `Option`
layer where `none` means the call panicked, so totality of an embedded
function with no `Option` layer reflects that the corresponding source path
has no panic point.
-/

namespace Notion

/-- src/lib.rs: `pub(crate) const NOTION_API_VERSION: &str = "2022-02-22";` -/
def NOTION_API_VERSION : String := "2022-02-22"

/-- Modelled from the spec: the `models` module is not under src/ and the spec
excludes the model structs from further specification ("plain serialization
structs with no invariants"); a page is opaque payload data. -/
structure Page where
  data : String
deriving DecidableEq, Repr

/-- Modelled from the spec: opaque database payload (see `Page`). -/
structure Database where
  data : String
deriving DecidableEq, Repr

/-- Modelled from the spec: opaque block payload (see `Page`). -/
structure Block where
  data : String
deriving DecidableEq, Repr

/-- Modelled from the spec: "Error response: structured {code, status, message}
returned by the remote service on failure." The `models::error::ErrorResponse`
struct is not under src/. -/
structure ErrorResponse where
  code : String
  status : Nat
  message : String
deriving DecidableEq, Repr

/-- Modelled from the spec: the pagination wrapper `ListResponse<T>` from the
`models` module (not under src/); the spec calls it a straightforward
data-transfer object holding a list of objects plus pagination fields. -/
structure ListResponse (α : Type) where
  results : List α
  next_cursor : Option String
  has_more : Bool
deriving DecidableEq, Repr

/-- Modelled from the spec: "Tagged response envelope: one of {Page, Database,
Block, List-of-objects, Error}, discriminated by a field in the JSON payload."
The `models::Object` enum is not under src/. -/
inductive Object where
  | Page (page : Page)
  | Database (database : Database)
  | Block (block : Block)
  | List (list : ListResponse Object)
  | Error (error : ErrorResponse)

/-- Discriminant test: is the envelope the `List` variant? -/
def Object.isList : Object → Bool
  | .List _ => true
  | _ => false

/-- Discriminant test: is the envelope the `Error` variant? -/
def Object.isError : Object → Bool
  | .Error _ => true
  | _ => false

/-- Discriminant test: is the envelope the `Page` variant? -/
def Object.isPage : Object → Bool
  | .Page _ => true
  | _ => false

/-- Discriminant test: is the envelope the `Database` variant? -/
def Object.isDatabase : Object → Bool
  | .Database _ => true
  | _ => false

/-- Discriminant test: is the envelope the `Block` variant? -/
def Object.isBlock : Object → Bool
  | .Block _ => true
  | _ => false

/-- Abstract payload of a `serde_json::Error` (external crate). -/
structure JsonError where
  msg : String
deriving DecidableEq, Repr

/-- Abstract payload of a transport-level error (`reqwest::Error` /
`http_req::error::Error`, external crates). -/
structure NetError where
  msg : String
deriving DecidableEq, Repr

/-- Abstract payload of a header-parse error (`header::InvalidHeaderValue` /
`http_req::error::ParseErr`, external crates). -/
structure ParseErr where
  msg : String
deriving DecidableEq, Repr

/-- The backend `Error` enums of src/backend/reqwest_impl.rs and
src/backend/http_req_impl.rs, merged: the two enums declare the same variants
except that only the http_req one has `Infallible` (which its code never
constructs) and the source types differ per backend. -/
inductive Error where
  | InvalidApiToken (source : ParseErr)
  | ErrorBuildingClient (source : NetError)
  | RequestFailed (source : NetError)
  | ResponseIoError (source : NetError)
  | JsonParseError (source : JsonError)
  | UnexpectedResponse (response : Object)
  | ApiError (error : ErrorResponse)
  | Infallible

/-- A request header, as a (name, value) pair. -/
abbrev Header : Type := String × String

/-- Validity of an HTTP header value, as checked by
`http::HeaderValue::from_str` (external crate, used by reqwest): every
character must be the horizontal tab or have code point at least 32 and
distinct from 127 (DEL); bytes of a multi-byte UTF-8 character are all at
least 128 and hence accepted. -/
def isValidHeaderValue (s : String) : Bool :=
  s.toList.all fun c => c = '\t' || (32 ≤ c.toNat && c.toNat ≠ 127)

namespace Reqwest

/-- src/backend/reqwest_impl.rs `Client`: holds a reqwest client built with
default headers derived from the token; the token determines those headers. -/
structure Client where
  token : String

/-- Outcome of `ClientBuilder::build()` (external to the repository). -/
inductive BuildOutcome where
  | ok
  | fail (e : NetError)

/-- src/backend/reqwest_impl.rs `Client::new`: installs `Notion-Version` as a
default header, parses `"Bearer " ++ token` as a header value (failure is
`InvalidApiToken`), then builds the reqwest client (failure is
`ErrorBuildingClient`). The builder's outcome is an oracle argument. -/
def Client.new (build : BuildOutcome) (api_token : String) :
    Except Error Client :=
  if isValidHeaderValue ("Bearer " ++ api_token) then
    match build with
    | .ok => .ok ⟨api_token⟩
    | .fail e => .error (.ErrorBuildingClient e)
  else
    .error (.InvalidApiToken ⟨"invalid header value"⟩)

/-- The default headers installed by `Client::new` and attached by reqwest to
every request of this client. -/
def Client.defaultHeaders (c : Client) : List Header :=
  [("Notion-Version", NOTION_API_VERSION),
   ("Authorization", "Bearer " ++ c.token)]

/-- Headers of a request built by `Client::get` / `Client::post`: just the
client's default headers. -/
def Client.requestHeaders (c : Client) : List Header :=
  c.defaultHeaders

/-- Headers of a request built by `Client::post_json` (body length in bytes):
the default headers plus the two headers added in post_json. -/
def Client.postJsonHeaders (c : Client) (bodyLen : Nat) : List Header :=
  c.defaultHeaders ++
    [("Content-Type", "application/json"),
     ("Content-Length", toString bodyLen)]

/-- What the external HTTP machinery did for one request, as observed by
`make_json_request`: `RequestBuilder::build` failed, `execute` failed,
`text()` failed, or a response body text was obtained. -/
inductive HttpOutcome where
  | buildErr (e : NetError)
  | execErr (e : NetError)
  | textErr (e : NetError)
  | text (body : String)

/-- src/backend/reqwest_impl.rs `Client::make_json_request`: `request.build()?`
(its reqwest error converts to `RequestFailed` via `#[from]`), `execute` error
maps to `RequestFailed`, `text()` error maps to `ResponseIoError`, the body is
parsed by serde_json (`parse` oracle; failure maps to `JsonParseError`), and
an `Object::Error` envelope maps to `ApiError`; any other envelope is `Ok`. -/
def make_json_request (parse : String → Except JsonError Object)
    (outcome : HttpOutcome) : Except Error Object :=
  match outcome with
  | .buildErr e => .error (.RequestFailed e)
  | .execErr e => .error (.RequestFailed e)
  | .textErr e => .error (.ResponseIoError e)
  | .text body =>
    match parse body with
    | .error source => .error (.JsonParseError source)
    | .ok (Object.Error error) => .error (.ApiError error)
    | .ok response => .ok response

/-- src/backend/reqwest_impl.rs `TClient::get`: builds a GET request at `uri`
and delegates to `make_json_request`. No panic point exists on this path, so
the result type carries no panic layer. -/
def Client.get (_c : Client) (parse : String → Except JsonError Object)
    (outcome : HttpOutcome) (_uri : String) : Except Error Object :=
  make_json_request parse outcome

/-- src/backend/reqwest_impl.rs `TClient::post`. -/
def Client.post (_c : Client) (parse : String → Except JsonError Object)
    (outcome : HttpOutcome) (_uri : String) : Except Error Object :=
  make_json_request parse outcome

/-- src/backend/reqwest_impl.rs `TClient::post_json`. -/
def Client.post_json (_c : Client) (parse : String → Except JsonError Object)
    (outcome : HttpOutcome) (_uri : String) (_body : List UInt8) :
    Except Error Object :=
  make_json_request parse outcome

end Reqwest

namespace HttpReq

/-- src/backend/http_req_impl.rs `Client`: holds only the token. -/
structure Client where
  token : String

/-- src/backend/http_req_impl.rs `Client::new`: `Result<Self, Infallible>`,
documented "Never fail": it stores the token without any validation. -/
def Client.new (api_token : String) : Except Empty Client :=
  .ok ⟨api_token⟩

/-- An `http_req::uri::Uri` value (external crate), kept abstract. -/
structure Uri where
  raw : String

/-- Headers attached to a `get` / `post` request of the http_req backend: the
two headers added inside `make_json_request`. -/
def Client.requestHeaders (c : Client) : List Header :=
  [("Notion-Version", NOTION_API_VERSION),
   ("Authorization", "Bearer " ++ c.token)]

/-- Headers attached to a `post_json` request (body length in bytes): the two
headers added in `post_json`, then the two added in `make_json_request`. -/
def Client.postJsonHeaders (c : Client) (bodyLen : Nat) : List Header :=
  [("Content-Type", "application/json"),
   ("Content-Length", toString bodyLen)] ++
    c.requestHeaders

/-- What the external HTTP machinery did for one request, as observed by
`make_json_request`: `Request::send` failed, or the response body bytes were
written (then read back via `String::from_utf8_lossy`, which cannot fail). -/
inductive HttpOutcome where
  | sendErr (e : NetError)
  | text (body : String)

/-- src/backend/http_req_impl.rs `Client::make_json_request`: adds the
`Notion-Version` and `Authorization` headers, sends (failure maps to
`RequestFailed`), reads the body text, parses it by serde_json (`parse`
oracle; failure maps to `JsonParseError`), and an `Object::Error` envelope
maps to `ApiError`; any other envelope is `Ok`. -/
def make_json_request (parse : String → Except JsonError Object)
    (outcome : HttpOutcome) : Except Error Object :=
  match outcome with
  | .sendErr e => .error (.RequestFailed e)
  | .text body =>
    match parse body with
    | .error source => .error (.JsonParseError source)
    | .ok (Object.Error error) => .error (.ApiError error)
    | .ok response => .ok response

/-- src/backend/http_req_impl.rs `TClient::get`:
`Uri::try_from(raw.as_str()).unwrap()` — the `uriParse` oracle models
`Uri::try_from`, and a `none` result makes the whole call panic (`none` in the
outer `Option`); otherwise the call delegates to `make_json_request`. -/
def Client.get (_c : Client) (uriParse : String → Option Uri)
    (parse : String → Except JsonError Object) (outcome : HttpOutcome)
    (uri : String) : Option (Except Error Object) :=
  match uriParse uri with
  | none => none
  | some _ => some (make_json_request parse outcome)

/-- src/backend/http_req_impl.rs `TClient::post`: same unwrap of the URI
parse as `get`. -/
def Client.post (_c : Client) (uriParse : String → Option Uri)
    (parse : String → Except JsonError Object) (outcome : HttpOutcome)
    (uri : String) : Option (Except Error Object) :=
  match uriParse uri with
  | none => none
  | some _ => some (make_json_request parse outcome)

/-- src/backend/http_req_impl.rs `TClient::post_json`: same unwrap of the URI
parse, then the JSON content headers and body are set before delegating. -/
def Client.post_json (_c : Client) (uriParse : String → Option Uri)
    (parse : String → Except JsonError Object) (outcome : HttpOutcome)
    (uri : String) (_body : List UInt8) : Option (Except Error Object) :=
  match uriParse uri with
  | none => none
  | some _ => some (make_json_request parse outcome)

end HttpReq

/-- A request dispatched through the `TClient` trait of src/backend/mod.rs:
`get(uri)`, `post(uri)`, or `post_json(uri, body)` (the facade always passes
the bytes of a serialized JSON string as the body). -/
inductive Req where
  | get (uri : String)
  | post (uri : String)
  | postJson (uri : String) (body : String)
deriving DecidableEq, Repr

/-- A facade computation: the straight-line body of a `NotionApi` method,
with each transport dispatch made explicit as a `call` node so that the
number of HTTP sends performed in an execution is observable. -/
inductive Prog (α : Type) where
  | pure (result : Except Error α)
  | call (req : Req) (k : Except Error Object → Prog α)

/-- Execute a facade computation against a transport oracle (the oracle is
the composed backend client: it maps each dispatched request to the
`Result<Object>` the transport returns for it). -/
def Prog.run (oracle : Req → Except Error Object) : Prog α → Except Error α
  | .pure r => r
  | .call req k => (k (oracle req)).run oracle

/-- Number of transport dispatches (HTTP sends) performed when executing a
facade computation against the given oracle. -/
def Prog.sends (oracle : Req → Except Error Object) : Prog α → Nat
  | .pure _ => 0
  | .call req k => (k (oracle req)).sends oracle + 1

/-- The first request a facade computation dispatches, if any. -/
def Prog.head? : Prog α → Option Req
  | .pure _ => none
  | .call req _ => some req

/-- Extract the `Database` payload of an envelope, when it is that variant. -/
def Object.asDatabase : Object → Option Notion.Database
  | .Database database => some database
  | _ => none

/-- Extract the `Page` payload of an envelope, when it is that variant. -/
def Object.asPage : Object → Option Notion.Page
  | .Page page => some page
  | _ => none

/-- Extract the `Block` payload of an envelope, when it is that variant. -/
def Object.asBlock : Object → Option Notion.Block
  | .Block block => some block
  | _ => none

/-- Modelled from the spec: helper for the `expect_*` refinements of
`ListResponse<Object>` (the `models` module is not under src/). Each element
must be of the expected variant; the first element of another variant yields
`UnexpectedResponse` carrying that element, matching the spec's rule that a
well-formed object of an unexpected kind is a type error. -/
def expectAll (extract : Object → Option β) : List Object → Except Error (List β)
  | [] => .ok []
  | o :: rest =>
    match extract o with
    | some b => (expectAll extract rest).map (b :: ·)
    | none => .error (.UnexpectedResponse o)

/-- Modelled from the spec: `ListResponse::expect_databases` (not under src/),
used with `?` by `NotionApi::list_databases`; refines a list envelope into
typed databases, keeping the pagination fields. -/
def ListResponse.expect_databases (l : ListResponse Object) :
    Except Error (ListResponse Database) :=
  (expectAll Object.asDatabase l.results).map fun rs =>
    ⟨rs, l.next_cursor, l.has_more⟩

/-- Modelled from the spec: `ListResponse::expect_pages` (not under src/),
used with `?` by `NotionApi::query_database`. -/
def ListResponse.expect_pages (l : ListResponse Object) :
    Except Error (ListResponse Page) :=
  (expectAll Object.asPage l.results).map fun rs =>
    ⟨rs, l.next_cursor, l.has_more⟩

/-- Modelled from the spec: `ListResponse::expect_blocks` (not under src/),
used with `?` by `NotionApi::get_block_children`. -/
def ListResponse.expect_blocks (l : ListResponse Object) :
    Except Error (ListResponse Block) :=
  (expectAll Object.asBlock l.results).map fun rs =>
    ⟨rs, l.next_cursor, l.has_more⟩

/-- Modelled from the spec: a search request body (`models::search`, not under
src/; the spec excludes request/query builders as plain data). -/
structure SearchRequest where
  data : String

/-- Modelled from the spec: a page-creation request body (not under src/). -/
structure PageCreateRequest where
  data : String

/-- Modelled from the spec: a database query body (not under src/). -/
structure DatabaseQuery where
  data : String

/-- src/backend/mod.rs `NotionApi`: the facade holding one backend client. -/
structure NotionApi where
  token : String

/-- src/backend/mod.rs `NotionApi::new` compiled against the reqwest backend:
`Client::new(api_token.into())?` propagates the backend's construction
result. -/
def NotionApi.newReqwest (build : Reqwest.BuildOutcome) (api_token : String) :
    Except Error NotionApi :=
  match Reqwest.Client.new build api_token with
  | .ok c => .ok ⟨c.token⟩
  | .error e => .error e

/-- src/backend/mod.rs `NotionApi::new` compiled against the http_req backend:
`Client::new` is infallible there, so construction always succeeds. -/
def NotionApi.newHttpReq (api_token : String) : Except Error NotionApi :=
  match HttpReq.Client.new api_token with
  | .ok c => .ok ⟨c.token⟩

/-- src/backend/mod.rs `NotionApi::list_databases`: GET the databases URL;
a `List` envelope is refined by `expect_databases` (its error propagates via
`?`), any other envelope is `UnexpectedResponse`. -/
def NotionApi.list_databases : Prog (ListResponse Database) :=
  .call (.get "https://api.notion.com/v1/databases") fun r =>
    .pure <| match r with
      | .error e => .error e
      | .ok (Object.List list) => list.expect_databases
      | .ok response => .error (.UnexpectedResponse response)

/-- src/backend/mod.rs `NotionApi::search`: serializes the query with
`serde_json::to_string(..).unwrap()` (the `ser` oracle models serde_json;
`none` makes the method panic, the outer `Option`), then POSTs the body to the
search URL; a `List` envelope is returned as is. -/
def NotionApi.search (ser : SearchRequest → Option String)
    (query : SearchRequest) : Option (Prog (ListResponse Object)) :=
  match ser query with
  | none => none
  | some body =>
    some <| .call (.postJson "https://api.notion.com/v1/search" body) fun r =>
      .pure <| match r with
        | .error e => .error e
        | .ok (Object.List list) => .ok list
        | .ok response => .error (.UnexpectedResponse response)

/-- src/backend/mod.rs `NotionApi::get_database`: GET
`"https://api.notion.com/v1/databases/{}"` formatted with the id. -/
def NotionApi.get_database (database_id : String) : Prog Database :=
  .call (.get ("https://api.notion.com/v1/databases/" ++ database_id)) fun r =>
    .pure <| match r with
      | .error e => .error e
      | .ok (Object.Database database) => .ok database
      | .ok response => .error (.UnexpectedResponse response)

/-- src/backend/mod.rs `NotionApi::get_page`: GET
`"https://api.notion.com/v1/pages/{}"` formatted with the id. -/
def NotionApi.get_page (page_id : String) : Prog Page :=
  .call (.get ("https://api.notion.com/v1/pages/" ++ page_id)) fun r =>
    .pure <| match r with
      | .error e => .error e
      | .ok (Object.Page page) => .ok page
      | .ok response => .error (.UnexpectedResponse response)

/-- src/backend/mod.rs `NotionApi::create_page`: serializes the page request
(unwrap modelled as in `search`), POSTs it to the pages URL; a `Page`
envelope is returned. -/
def NotionApi.create_page (ser : PageCreateRequest → Option String)
    (page : PageCreateRequest) : Option (Prog Page) :=
  match ser page with
  | none => none
  | some body =>
    some <| .call (.postJson "https://api.notion.com/v1/pages" body) fun r =>
      .pure <| match r with
        | .error e => .error e
        | .ok (Object.Page page) => .ok page
        | .ok response => .error (.UnexpectedResponse response)

/-- src/backend/mod.rs `NotionApi::query_database`: serializes the query
(unwrap modelled as in `search`), POSTs it to
`"https://api.notion.com/v1/databases/{database_id}/query"`; a `List`
envelope is refined by `expect_pages`. -/
def NotionApi.query_database (ser : DatabaseQuery → Option String)
    (database_id : String) (query : DatabaseQuery) :
    Option (Prog (ListResponse Page)) :=
  match ser query with
  | none => none
  | some body =>
    some <| .call
      (.postJson ("https://api.notion.com/v1/databases/" ++ database_id ++ "/query") body)
      fun r =>
        .pure <| match r with
          | .error e => .error e
          | .ok (Object.List list) => list.expect_pages
          | .ok response => .error (.UnexpectedResponse response)

/-- Spec-side extraction: the database payloads of the envelopes in a list
(used to state what the `expect_*` refinement returns on a homogeneous
list). -/
def databasePayloads (xs : List Object) : List Database :=
  xs.filterMap Object.asDatabase

/-- Spec-side extraction: the page payloads of the envelopes in a list. -/
def pagePayloads (xs : List Object) : List Page :=
  xs.filterMap Object.asPage

/-- Spec-side extraction: the block payloads of the envelopes in a list. -/
def blockPayloads (xs : List Object) : List Block :=
  xs.filterMap Object.asBlock

/-- src/backend/mod.rs `NotionApi::get_block_children`: GET
`"https://api.notion.com/v1/blocks/{block_id}/children"`; a `List` envelope
is refined by `expect_blocks`. -/
def NotionApi.get_block_children (block_id : String) :
    Prog (ListResponse Block) :=
  .call (.get ("https://api.notion.com/v1/blocks/" ++ block_id ++ "/children")) fun r =>
    .pure <| match r with
      | .error e => .error e
      | .ok (Object.List list) => list.expect_blocks
      | .ok response => .error (.UnexpectedResponse response)

/-- C5: every request sent by either transport backend (get, post, post_json)
carries the fixed `Notion-Version: 2022-02-22` header and an `Authorization`
header equal to `"Bearer "` followed by the client's token. -/
theorem every_request_carries_version_and_bearer (token : String) (n : Nat) :
    NOTION_API_VERSION = "2022-02-22"
    ∧ ("Notion-Version", "2022-02-22") ∈ (Reqwest.Client.mk token).requestHeaders
    ∧ ("Authorization", "Bearer " ++ token) ∈ (Reqwest.Client.mk token).requestHeaders
    ∧ ("Notion-Version", "2022-02-22") ∈ (Reqwest.Client.mk token).postJsonHeaders n
    ∧ ("Authorization", "Bearer " ++ token) ∈ (Reqwest.Client.mk token).postJsonHeaders n
    ∧ ("Notion-Version", "2022-02-22") ∈ (HttpReq.Client.mk token).requestHeaders
    ∧ ("Authorization", "Bearer " ++ token) ∈ (HttpReq.Client.mk token).requestHeaders
    ∧ ("Notion-Version", "2022-02-22") ∈ (HttpReq.Client.mk token).postJsonHeaders n
    ∧ ("Authorization", "Bearer " ++ token) ∈ (HttpReq.Client.mk token).postJsonHeaders n := by
  refine ⟨rfl, ?_, ?_, ?_, ?_, ?_, ?_, ?_, ?_⟩ <;>
    simp [Reqwest.Client.requestHeaders, Reqwest.Client.defaultHeaders,
      Reqwest.Client.postJsonHeaders, HttpReq.Client.requestHeaders,
      HttpReq.Client.postJsonHeaders, NOTION_API_VERSION]

/-- C4: for the same token and body length, the headers attached by the
reqwest backend and the WASI (http_req) backend agree: identical lists for
get/post, and a permutation (hence the same set) for post_json. -/
theorem transport_backends_attach_equal_headers (token : String) (n : Nat)
    (hd : Header) :
    (Reqwest.Client.mk token).requestHeaders
        = (HttpReq.Client.mk token).requestHeaders
    ∧ ((Reqwest.Client.mk token).postJsonHeaders n).Perm
        ((HttpReq.Client.mk token).postJsonHeaders n)
    ∧ (hd ∈ (Reqwest.Client.mk token).postJsonHeaders n
        ↔ hd ∈ (HttpReq.Client.mk token).postJsonHeaders n) := by
  have hperm : ((Reqwest.Client.mk token).postJsonHeaders n).Perm
      ((HttpReq.Client.mk token).postJsonHeaders n) := by
    show (([("Notion-Version", NOTION_API_VERSION),
            ("Authorization", "Bearer " ++ token)] : List Header) ++
          [("Content-Type", "application/json"),
           ("Content-Length", toString n)]).Perm
        ([("Content-Type", "application/json"),
          ("Content-Length", toString n)] ++
         [("Notion-Version", NOTION_API_VERSION),
          ("Authorization", "Bearer " ++ token)])
    exact List.perm_append_comm
  exact ⟨rfl, hperm, hperm.mem_iff⟩

/-- C7: each facade endpoint dispatches to the transport with a URI equal to
the fixed base `https://api.notion.com/v1` concatenated with the endpoint
path and the identifier's string form. -/
theorem facade_request_uris (database_id page_id block_id : String)
    (serS : SearchRequest → Option String) (sq : SearchRequest) (sbody : String)
    (serP : PageCreateRequest → Option String) (pq : PageCreateRequest) (pbody : String)
    (serQ : DatabaseQuery → Option String) (dq : DatabaseQuery) (qbody : String)
    (hS : serS sq = some sbody) (hP : serP pq = some pbody)
    (hQ : serQ dq = some qbody) :
    NotionApi.list_databases.head?
        = some (.get ("https://api.notion.com/v1" ++ "/databases"))
    ∧ (NotionApi.search serS sq).map Prog.head?
        = some (some (.postJson ("https://api.notion.com/v1" ++ "/search") sbody))
    ∧ (NotionApi.get_database database_id).head?
        = some (.get ("https://api.notion.com/v1" ++ "/databases/" ++ database_id))
    ∧ (NotionApi.get_page page_id).head?
        = some (.get ("https://api.notion.com/v1" ++ "/pages/" ++ page_id))
    ∧ (NotionApi.create_page serP pq).map Prog.head?
        = some (some (.postJson ("https://api.notion.com/v1" ++ "/pages") pbody))
    ∧ (NotionApi.query_database serQ database_id dq).map Prog.head?
        = some (some (.postJson
            ("https://api.notion.com/v1" ++ "/databases/" ++ database_id ++ "/query") qbody))
    ∧ (NotionApi.get_block_children block_id).head?
        = some (.get ("https://api.notion.com/v1" ++ "/blocks/" ++ block_id ++ "/children")) := by
  refine ⟨rfl, ?_, rfl, rfl, ?_, ?_, rfl⟩
  · simp [NotionApi.search, hS, Prog.head?]
  · simp [NotionApi.create_page, hP, Prog.head?]
  · simp [NotionApi.query_database, hQ, Prog.head?]

/-- C7 witness: the URI shapes at concrete identifiers and a serializer that
succeeds. -/
theorem facade_request_uris_witness :
    NotionApi.list_databases.head?
        = some (.get ("https://api.notion.com/v1" ++ "/databases"))
    ∧ (NotionApi.search (fun s => some s.data) ⟨"sq"⟩).map Prog.head?
        = some (some (.postJson ("https://api.notion.com/v1" ++ "/search") "sq"))
    ∧ (NotionApi.get_database "db1").head?
        = some (.get ("https://api.notion.com/v1" ++ "/databases/" ++ "db1"))
    ∧ (NotionApi.get_page "pg1").head?
        = some (.get ("https://api.notion.com/v1" ++ "/pages/" ++ "pg1"))
    ∧ (NotionApi.create_page (fun s => some s.data) ⟨"pc"⟩).map Prog.head?
        = some (some (.postJson ("https://api.notion.com/v1" ++ "/pages") "pc"))
    ∧ (NotionApi.query_database (fun s => some s.data) "db1" ⟨"dq"⟩).map Prog.head?
        = some (some (.postJson
            ("https://api.notion.com/v1" ++ "/databases/" ++ "db1" ++ "/query") "dq"))
    ∧ (NotionApi.get_block_children "bk1").head?
        = some (.get ("https://api.notion.com/v1" ++ "/blocks/" ++ "bk1" ++ "/children")) :=
  facade_request_uris "db1" "pg1" "bk1" (fun s => some s.data) ⟨"sq"⟩ "sq"
    (fun s => some s.data) ⟨"pc"⟩ "pc" (fun s => some s.data) ⟨"dq"⟩ "dq"
    rfl rfl rfl

/-- C9: in the http_req backend, get, post and post_json unwrap the URI
parse: whenever the URI fails to parse, the call panics (modelled `none`)
instead of returning an error result. -/
theorem httpreq_invalid_uri_panics (c : HttpReq.Client)
    (uriParse : String → Option HttpReq.Uri)
    (parse : String → Except JsonError Object) (outcome : HttpReq.HttpOutcome)
    (uri : String) (body : List UInt8) (h : uriParse uri = none) :
    c.get uriParse parse outcome uri = none
    ∧ c.post uriParse parse outcome uri = none
    ∧ c.post_json uriParse parse outcome uri body = none := by
  refine ⟨?_, ?_, ?_⟩ <;>
    simp [HttpReq.Client.get, HttpReq.Client.post, HttpReq.Client.post_json, h]

/-- C9 witness: a concrete always-failing URI parse makes all three calls
panic. -/
theorem httpreq_invalid_uri_panics_witness :
    (HttpReq.Client.mk "tok").get (fun _ => none) (fun _ => .error ⟨"e"⟩)
        (.text "{}") "not a uri" = none
    ∧ (HttpReq.Client.mk "tok").post (fun _ => none) (fun _ => .error ⟨"e"⟩)
        (.text "{}") "not a uri" = none
    ∧ (HttpReq.Client.mk "tok").post_json (fun _ => none) (fun _ => .error ⟨"e"⟩)
        (.text "{}") "not a uri" [] = none :=
  httpreq_invalid_uri_panics (HttpReq.Client.mk "tok") (fun _ => none)
    (fun _ => .error ⟨"e"⟩) (.text "{}") "not a uri" [] rfl

/-- C10: the facade methods search, create_page and query_database panic
(modelled `none`) exactly when the serialization of the request body fails;
a successful serialization is the only requirement for reaching the
transport dispatch. -/
theorem facade_serialization_unwrap_panics
    (serS : SearchRequest → Option String) (sq : SearchRequest)
    (serP : PageCreateRequest → Option String) (pq : PageCreateRequest)
    (serQ : DatabaseQuery → Option String) (database_id : String)
    (dq : DatabaseQuery) :
    (NotionApi.search serS sq = none ↔ serS sq = none)
    ∧ (NotionApi.create_page serP pq = none ↔ serP pq = none)
    ∧ (NotionApi.query_database serQ database_id dq = none ↔ serQ dq = none) := by
  refine ⟨?_, ?_, ?_⟩
  · cases h : serS sq <;> simp [NotionApi.search, h]
  · cases h : serP pq <;> simp [NotionApi.create_page, h]
  · cases h : serQ dq <;> simp [NotionApi.query_database, h]

/-- C8: every facade method dispatches exactly one transport request in every
execution, and when the transport returns an error on that request (network,
read or parse failure alike) the method returns exactly that error, with no
second request and no internal recovery. -/
theorem facade_single_send_and_immediate_failure
    (oracle : Req → Except Error Object) (e : Error)
    (database_id page_id block_id : String)
    (serS : SearchRequest → Option String) (sq : SearchRequest) (sbody : String)
    (serP : PageCreateRequest → Option String) (pq : PageCreateRequest) (pbody : String)
    (serQ : DatabaseQuery → Option String) (dq : DatabaseQuery) (qbody : String)
    (hS : serS sq = some sbody) (hP : serP pq = some pbody)
    (hQ : serQ dq = some qbody) :
    NotionApi.list_databases.sends oracle = 1
    ∧ (NotionApi.search serS sq).map (Prog.sends oracle) = some 1
    ∧ (NotionApi.get_database database_id).sends oracle = 1
    ∧ (NotionApi.get_page page_id).sends oracle = 1
    ∧ (NotionApi.create_page serP pq).map (Prog.sends oracle) = some 1
    ∧ (NotionApi.query_database serQ database_id dq).map (Prog.sends oracle) = some 1
    ∧ (NotionApi.get_block_children block_id).sends oracle = 1
    ∧ (oracle (.get "https://api.notion.com/v1/databases") = .error e →
        NotionApi.list_databases.run oracle = .error e)
    ∧ (oracle (.postJson "https://api.notion.com/v1/search" sbody) = .error e →
        (NotionApi.search serS sq).map (Prog.run oracle) = some (.error e))
    ∧ (oracle (.get ("https://api.notion.com/v1/databases/" ++ database_id)) = .error e →
        (NotionApi.get_database database_id).run oracle = .error e)
    ∧ (oracle (.get ("https://api.notion.com/v1/pages/" ++ page_id)) = .error e →
        (NotionApi.get_page page_id).run oracle = .error e)
    ∧ (oracle (.postJson "https://api.notion.com/v1/pages" pbody) = .error e →
        (NotionApi.create_page serP pq).map (Prog.run oracle) = some (.error e))
    ∧ (oracle (.postJson ("https://api.notion.com/v1/databases/" ++ database_id ++ "/query") qbody) = .error e →
        (NotionApi.query_database serQ database_id dq).map (Prog.run oracle) = some (.error e))
    ∧ (oracle (.get ("https://api.notion.com/v1/blocks/" ++ block_id ++ "/children")) = .error e →
        (NotionApi.get_block_children block_id).run oracle = .error e) := by
  refine ⟨?_, ?_, ?_, ?_, ?_, ?_, ?_, ?_, ?_, ?_, ?_, ?_, ?_, ?_⟩
  · simp [NotionApi.list_databases, Prog.sends]
  · simp [NotionApi.search, hS, Prog.sends]
  · simp [NotionApi.get_database, Prog.sends]
  · simp [NotionApi.get_page, Prog.sends]
  · simp [NotionApi.create_page, hP, Prog.sends]
  · simp [NotionApi.query_database, hQ, Prog.sends]
  · simp [NotionApi.get_block_children, Prog.sends]
  · intro h; simp [NotionApi.list_databases, Prog.run, h]
  · intro h; simp [NotionApi.search, hS, Prog.run, h]
  · intro h; simp [NotionApi.get_database, Prog.run, h]
  · intro h; simp [NotionApi.get_page, Prog.run, h]
  · intro h; simp [NotionApi.create_page, hP, Prog.run, h]
  · intro h; simp [NotionApi.query_database, hQ, Prog.run, h]
  · intro h; simp [NotionApi.get_block_children, Prog.run, h]

/-- C8 witness: at a concrete oracle that fails every request with a network
error, every method performs exactly one send and surfaces that error. -/
theorem facade_single_send_and_immediate_failure_witness :
    NotionApi.list_databases.sends (fun _ => .error (.RequestFailed ⟨"down"⟩)) = 1
    ∧ (NotionApi.search (fun s => some s.data) ⟨"sq"⟩).map
        (Prog.sends (fun _ => .error (.RequestFailed ⟨"down"⟩))) = some 1
    ∧ (NotionApi.get_database "db1").sends (fun _ => .error (.RequestFailed ⟨"down"⟩)) = 1
    ∧ (NotionApi.get_page "pg1").sends (fun _ => .error (.RequestFailed ⟨"down"⟩)) = 1
    ∧ (NotionApi.create_page (fun s => some s.data) ⟨"pc"⟩).map
        (Prog.sends (fun _ => .error (.RequestFailed ⟨"down"⟩))) = some 1
    ∧ (NotionApi.query_database (fun s => some s.data) "db1" ⟨"dq"⟩).map
        (Prog.sends (fun _ => .error (.RequestFailed ⟨"down"⟩))) = some 1
    ∧ (NotionApi.get_block_children "bk1").sends
        (fun _ => .error (.RequestFailed ⟨"down"⟩)) = 1
    ∧ ((fun (_ : Req) => (.error (.RequestFailed ⟨"down"⟩) : Except Error Object))
          (.get "https://api.notion.com/v1/databases") = .error (.RequestFailed ⟨"down"⟩) →
        NotionApi.list_databases.run (fun _ => .error (.RequestFailed ⟨"down"⟩))
          = .error (.RequestFailed ⟨"down"⟩))
    ∧ ((fun (_ : Req) => (.error (.RequestFailed ⟨"down"⟩) : Except Error Object))
          (.postJson "https://api.notion.com/v1/search" "sq") = .error (.RequestFailed ⟨"down"⟩) →
        (NotionApi.search (fun s => some s.data) ⟨"sq"⟩).map
          (Prog.run (fun _ => .error (.RequestFailed ⟨"down"⟩)))
          = some (.error (.RequestFailed ⟨"down"⟩)))
    ∧ ((fun (_ : Req) => (.error (.RequestFailed ⟨"down"⟩) : Except Error Object))
          (.get ("https://api.notion.com/v1/databases/" ++ "db1")) = .error (.RequestFailed ⟨"down"⟩) →
        (NotionApi.get_database "db1").run (fun _ => .error (.RequestFailed ⟨"down"⟩))
          = .error (.RequestFailed ⟨"down"⟩))
    ∧ ((fun (_ : Req) => (.error (.RequestFailed ⟨"down"⟩) : Except Error Object))
          (.get ("https://api.notion.com/v1/pages/" ++ "pg1")) = .error (.RequestFailed ⟨"down"⟩) →
        (NotionApi.get_page "pg1").run (fun _ => .error (.RequestFailed ⟨"down"⟩))
          = .error (.RequestFailed ⟨"down"⟩))
    ∧ ((fun (_ : Req) => (.error (.RequestFailed ⟨"down"⟩) : Except Error Object))
          (.postJson "https://api.notion.com/v1/pages" "pc") = .error (.RequestFailed ⟨"down"⟩) →
        (NotionApi.create_page (fun s => some s.data) ⟨"pc"⟩).map
          (Prog.run (fun _ => .error (.RequestFailed ⟨"down"⟩)))
          = some (.error (.RequestFailed ⟨"down"⟩)))
    ∧ ((fun (_ : Req) => (.error (.RequestFailed ⟨"down"⟩) : Except Error Object))
          (.postJson ("https://api.notion.com/v1/databases/" ++ "db1" ++ "/query") "dq")
            = .error (.RequestFailed ⟨"down"⟩) →
        (NotionApi.query_database (fun s => some s.data) "db1" ⟨"dq"⟩).map
          (Prog.run (fun _ => .error (.RequestFailed ⟨"down"⟩)))
          = some (.error (.RequestFailed ⟨"down"⟩)))
    ∧ ((fun (_ : Req) => (.error (.RequestFailed ⟨"down"⟩) : Except Error Object))
          (.get ("https://api.notion.com/v1/blocks/" ++ "bk1" ++ "/children"))
            = .error (.RequestFailed ⟨"down"⟩) →
        (NotionApi.get_block_children "bk1").run (fun _ => .error (.RequestFailed ⟨"down"⟩))
          = .error (.RequestFailed ⟨"down"⟩)) :=
  facade_single_send_and_immediate_failure
    (fun _ => .error (.RequestFailed ⟨"down"⟩)) (.RequestFailed ⟨"down"⟩)
    "db1" "pg1" "bk1" (fun s => some s.data) ⟨"sq"⟩ "sq"
    (fun s => some s.data) ⟨"pc"⟩ "pc" (fun s => some s.data) ⟨"dq"⟩ "dq"
    rfl rfl rfl

/-- C2: when the response body parses as the `Error` envelope, both backends'
request pipeline returns `ApiError` carrying exactly that error's payload
(code, status, message); moreover an `Ok` result of either pipeline is never
the `Error` variant. The embedded pipelines are total functions into
`Except`, with no panic layer: no panic point exists on these paths. -/
theorem transport_error_envelope_to_api_error
    (parse : String → Except JsonError Object) (body : String)
    (e : ErrorResponse) (o1 : Reqwest.HttpOutcome) (o2 : HttpReq.HttpOutcome)
    (obj1 obj2 : Object) (h : parse body = .ok (.Error e)) :
    Reqwest.make_json_request parse (.text body) = .error (.ApiError e)
    ∧ HttpReq.make_json_request parse (.text body) = .error (.ApiError e)
    ∧ (Reqwest.make_json_request parse o1 = .ok obj1 → obj1.isError = false)
    ∧ (HttpReq.make_json_request parse o2 = .ok obj2 → obj2.isError = false) := by
  refine ⟨?_, ?_, ?_, ?_⟩
  · simp [Reqwest.make_json_request, h]
  · simp [HttpReq.make_json_request, h]
  · intro hok
    cases o1 with
    | buildErr _ => simp [Reqwest.make_json_request] at hok
    | execErr _ => simp [Reqwest.make_json_request] at hok
    | textErr _ => simp [Reqwest.make_json_request] at hok
    | text b =>
      simp only [Reqwest.make_json_request] at hok
      cases hp : parse b with
      | error _ => rw [hp] at hok; simp at hok
      | ok o =>
        rw [hp] at hok
        cases o <;> simp at hok <;> (subst hok; rfl)
  · intro hok
    cases o2 with
    | sendErr _ => simp [HttpReq.make_json_request] at hok
    | text b =>
      simp only [HttpReq.make_json_request] at hok
      cases hp : parse b with
      | error _ => rw [hp] at hok; simp at hok
      | ok o =>
        rw [hp] at hok
        cases o <;> simp at hok <;> (subst hok; rfl)

/-- C2 witness: a concrete parse yielding the error envelope maps to
`ApiError` in both backends. -/
theorem transport_error_envelope_to_api_error_witness :
    Reqwest.make_json_request
        (fun _ => .ok (.Error ⟨"unauthorized", 401, "bad token"⟩)) (.text "{}")
      = .error (.ApiError ⟨"unauthorized", 401, "bad token"⟩)
    ∧ HttpReq.make_json_request
        (fun _ => .ok (.Error ⟨"unauthorized", 401, "bad token"⟩)) (.text "{}")
      = .error (.ApiError ⟨"unauthorized", 401, "bad token"⟩)
    ∧ (Reqwest.make_json_request
        (fun _ => .ok (.Error ⟨"unauthorized", 401, "bad token"⟩)) (.text "{}")
          = .ok (.Page ⟨"p"⟩) → (Object.Page ⟨"p"⟩).isError = false)
    ∧ (HttpReq.make_json_request
        (fun _ => .ok (.Error ⟨"unauthorized", 401, "bad token"⟩)) (.text "{}")
          = .ok (.Page ⟨"p"⟩) → (Object.Page ⟨"p"⟩).isError = false) :=
  transport_error_envelope_to_api_error
    (fun _ => .ok (.Error ⟨"unauthorized", 401, "bad token"⟩)) "{}"
    ⟨"unauthorized", 401, "bad token"⟩ (.text "{}") (.text "{}")
    (.Page ⟨"p"⟩) (.Page ⟨"p"⟩) rfl

/-- C3: when the response body does not parse as the tagged envelope, both
backends' request pipeline returns `JsonParseError` carrying the parse
error. The embedded pipelines are total functions into `Except`: no panic
point exists on this path. -/
theorem transport_malformed_json_to_parse_error
    (parse : String → Except JsonError Object) (body : String)
    (je : JsonError) (h : parse body = .error je) :
    Reqwest.make_json_request parse (.text body) = .error (.JsonParseError je)
    ∧ HttpReq.make_json_request parse (.text body) = .error (.JsonParseError je) := by
  constructor
  · simp [Reqwest.make_json_request, h]
  · simp [HttpReq.make_json_request, h]

/-- C3 witness: a concrete failing parse maps to `JsonParseError` in both
backends. -/
theorem transport_malformed_json_to_parse_error_witness :
    Reqwest.make_json_request (fun _ => .error ⟨"expected value"⟩) (.text "not json")
      = .error (.JsonParseError ⟨"expected value"⟩)
    ∧ HttpReq.make_json_request (fun _ => .error ⟨"expected value"⟩) (.text "not json")
      = .error (.JsonParseError ⟨"expected value"⟩) :=
  transport_malformed_json_to_parse_error (fun _ => .error ⟨"expected value"⟩)
    "not json" ⟨"expected value"⟩ rfl

/-- C6 counterexample: the token `"a\nb"` makes `"Bearer a\nb"` an invalid
header value, yet the WASI (http_req) backend's `Client::new` — and the
facade construction over it — succeeds, contradicting the claim that
construction returns an invalid-credential error for every invalid token. -/
theorem client_new_validation_counterexample :
    isValidHeaderValue ("Bearer " ++ "a\nb") = false
    ∧ HttpReq.Client.new "a\nb" = .ok ⟨"a\nb"⟩
    ∧ NotionApi.newHttpReq "a\nb" = .ok ⟨"a\nb"⟩ := by
  refine ⟨by decide, rfl, rfl⟩

/-- C6 (amended): only the reqwest backend validates the credential format:
its `Client::new` returns `InvalidApiToken` exactly when `"Bearer " ++ token`
is an invalid header value, and on a valid token succeeds when the underlying
client builds (failing with `ErrorBuildingClient` otherwise); the WASI
(http_req) backend's `Client::new` succeeds for every token without
validation, as does the facade construction over it. -/
theorem client_new_validation_amended (token : String) (e : NetError) :
    (isValidHeaderValue ("Bearer " ++ token) = false →
      Reqwest.Client.new .ok token
          = .error (.InvalidApiToken ⟨"invalid header value"⟩)
      ∧ Reqwest.Client.new (.fail e) token
          = .error (.InvalidApiToken ⟨"invalid header value"⟩))
    ∧ (isValidHeaderValue ("Bearer " ++ token) = true →
      Reqwest.Client.new .ok token = .ok ⟨token⟩
      ∧ Reqwest.Client.new (.fail e) token = .error (.ErrorBuildingClient e)
      ∧ NotionApi.newReqwest .ok token = .ok ⟨token⟩)
    ∧ HttpReq.Client.new token = .ok ⟨token⟩
    ∧ NotionApi.newHttpReq token = .ok ⟨token⟩ := by
  refine ⟨?_, ?_, rfl, rfl⟩
  · intro h
    constructor <;> simp [Reqwest.Client.new, h]
  · intro h
    refine ⟨?_, ?_, ?_⟩ <;>
      simp [Reqwest.Client.new, NotionApi.newReqwest, h]

/-- C6 witness: the amended behavior at the valid token `"tok"` and the
invalid token `"a\nb"` (two applications folded into one closed
conjunction is not possible for a single application, so the valid token is
exercised here; the counterexample theorem already evaluates the invalid
one). -/
theorem client_new_validation_amended_witness :
    (isValidHeaderValue ("Bearer " ++ "tok") = false →
      Reqwest.Client.new .ok "tok"
          = .error (.InvalidApiToken ⟨"invalid header value"⟩)
      ∧ Reqwest.Client.new (.fail ⟨"tls"⟩) "tok"
          = .error (.InvalidApiToken ⟨"invalid header value"⟩))
    ∧ (isValidHeaderValue ("Bearer " ++ "tok") = true →
      Reqwest.Client.new .ok "tok" = .ok ⟨"tok"⟩
      ∧ Reqwest.Client.new (.fail ⟨"tls"⟩) "tok" = .error (.ErrorBuildingClient ⟨"tls"⟩)
      ∧ NotionApi.newReqwest .ok "tok" = .ok ⟨"tok"⟩)
    ∧ HttpReq.Client.new "tok" = .ok ⟨"tok"⟩
    ∧ NotionApi.newHttpReq "tok" = .ok ⟨"tok"⟩ :=
  client_new_validation_amended "tok" ⟨"tls"⟩

/-- When every element of the list extracts, the `expect_*` traversal
succeeds and returns exactly the extracted payloads. -/
theorem expectAll_eq_ok_of_forall (extract : Object → Option β)
    (xs : List Object) (h : ∀ x ∈ xs, (extract x).isSome) :
    expectAll extract xs = .ok (xs.filterMap extract) := by
  induction xs with
  | nil => rfl
  | cons x rest ih =>
    obtain ⟨b, hb⟩ := Option.isSome_iff_exists.mp (h x (by simp))
    simp [expectAll, hb, List.filterMap_cons,
      ih (fun y hy => h y (by simp [hy])), Except.map]

/-- The `expect_*` traversal fails with `UnexpectedResponse` carrying the
first element that does not extract. -/
theorem expectAll_eq_err_first (extract : Object → Option β)
    (pre post : List Object) (bad : Object)
    (hpre : ∀ x ∈ pre, (extract x).isSome) (hbad : extract bad = none) :
    expectAll extract (pre ++ bad :: post)
      = .error (.UnexpectedResponse bad) := by
  induction pre with
  | nil => simp [expectAll, hbad]
  | cons x rest ih =>
    obtain ⟨b, hb⟩ := Option.isSome_iff_exists.mp (hpre x (by simp))
    simp [expectAll, hb,
      ih (fun y hy => hpre y (by simp [hy])), Except.map]

/-- An envelope whose discriminant is `Database` extracts to its payload. -/
theorem asDatabase_isSome {x : Object} (h : x.isDatabase = true) :
    (Object.asDatabase x).isSome := by
  cases x <;> simp_all [Object.isDatabase, Object.asDatabase]

/-- An envelope whose discriminant is not `Database` does not extract. -/
theorem asDatabase_eq_none {x : Object} (h : x.isDatabase = false) :
    Object.asDatabase x = none := by
  cases x <;> simp_all [Object.isDatabase, Object.asDatabase]

/-- An envelope whose discriminant is `Page` extracts to its payload. -/
theorem asPage_isSome {x : Object} (h : x.isPage = true) :
    (Object.asPage x).isSome := by
  cases x <;> simp_all [Object.isPage, Object.asPage]

/-- An envelope whose discriminant is not `Page` does not extract. -/
theorem asPage_eq_none {x : Object} (h : x.isPage = false) :
    Object.asPage x = none := by
  cases x <;> simp_all [Object.isPage, Object.asPage]

/-- An envelope whose discriminant is `Block` extracts to its payload. -/
theorem asBlock_isSome {x : Object} (h : x.isBlock = true) :
    (Object.asBlock x).isSome := by
  cases x <;> simp_all [Object.isBlock, Object.asBlock]

/-- An envelope whose discriminant is not `Block` does not extract. -/
theorem asBlock_eq_none {x : Object} (h : x.isBlock = false) :
    Object.asBlock x = none := by
  cases x <;> simp_all [Object.isBlock, Object.asBlock]

/-- C1 counterexample: the transport successfully returns a `List` envelope
(the endpoint's expected discriminant for `list_databases`), yet the method
returns an `UnexpectedResponse` error (carrying the offending list element,
not the envelope) because the list holds a `Page`: the claim's "if the
envelope's discriminant is the endpoint's expected variant the method
returns Ok with that payload" fails at this input. -/
theorem facade_expected_variant_counterexample :
    (Object.List ⟨[Object.Page ⟨"p"⟩], none, false⟩).isList = true
    ∧ NotionApi.list_databases.run
        (fun _ => .ok (Object.List ⟨[Object.Page ⟨"p"⟩], none, false⟩))
      = .error (.UnexpectedResponse (Object.Page ⟨"p"⟩)) :=
  ⟨rfl, rfl⟩

/-- C1 (amended): for every envelope the transport returns successfully,
get_database / get_page / create_page return Ok exactly on their expected
variant's payload, search returns Ok on any List envelope, and the three
list-refining endpoints (list_databases, query_database, get_block_children)
return Ok with the elementwise payloads when every list element is of the
expected kind, and otherwise return UnexpectedResponse carrying the first
mismatched element; any envelope of an unexpected discriminant yields
UnexpectedResponse carrying that envelope. -/
theorem facade_expected_variant_dispatch
    (o : Object) (d : Database) (p : Page) (l : ListResponse Object)
    (pre post : List Object) (bad : Object)
    (database_id page_id block_id : String)
    (serS : SearchRequest → Option String) (sq : SearchRequest) (sbody : String)
    (serP : PageCreateRequest → Option String) (pq : PageCreateRequest) (pbody : String)
    (serQ : DatabaseQuery → Option String) (dq : DatabaseQuery) (qbody : String)
    (hS : serS sq = some sbody) (hP : serP pq = some pbody)
    (hQ : serQ dq = some qbody) :
    (o = .Database d →
      (NotionApi.get_database database_id).run (fun _ => .ok o) = .ok d)
    ∧ (o.isDatabase = false →
      (NotionApi.get_database database_id).run (fun _ => .ok o)
        = .error (.UnexpectedResponse o))
    ∧ (o = .Page p →
      (NotionApi.get_page page_id).run (fun _ => .ok o) = .ok p)
    ∧ (o.isPage = false →
      (NotionApi.get_page page_id).run (fun _ => .ok o)
        = .error (.UnexpectedResponse o))
    ∧ (o = .List l →
      (NotionApi.search serS sq).map (Prog.run (fun _ => .ok o))
        = some (.ok l))
    ∧ (o.isList = false →
      (NotionApi.search serS sq).map (Prog.run (fun _ => .ok o))
        = some (.error (.UnexpectedResponse o)))
    ∧ (o = .Page p →
      (NotionApi.create_page serP pq).map (Prog.run (fun _ => .ok o))
        = some (.ok p))
    ∧ (o.isPage = false →
      (NotionApi.create_page serP pq).map (Prog.run (fun _ => .ok o))
        = some (.error (.UnexpectedResponse o)))
    ∧ ((∀ x ∈ l.results, x.isDatabase = true) →
      NotionApi.list_databases.run (fun _ => .ok (.List l))
        = .ok ⟨databasePayloads l.results, l.next_cursor, l.has_more⟩)
    ∧ (l.results = pre ++ bad :: post → (∀ x ∈ pre, x.isDatabase = true) →
        bad.isDatabase = false →
      NotionApi.list_databases.run (fun _ => .ok (.List l))
        = .error (.UnexpectedResponse bad))
    ∧ (o.isList = false →
      NotionApi.list_databases.run (fun _ => .ok o)
        = .error (.UnexpectedResponse o))
    ∧ ((∀ x ∈ l.results, x.isPage = true) →
      (NotionApi.query_database serQ database_id dq).map
          (Prog.run (fun _ => .ok (.List l)))
        = some (.ok ⟨pagePayloads l.results, l.next_cursor, l.has_more⟩))
    ∧ (l.results = pre ++ bad :: post → (∀ x ∈ pre, x.isPage = true) →
        bad.isPage = false →
      (NotionApi.query_database serQ database_id dq).map
          (Prog.run (fun _ => .ok (.List l)))
        = some (.error (.UnexpectedResponse bad)))
    ∧ (o.isList = false →
      (NotionApi.query_database serQ database_id dq).map
          (Prog.run (fun _ => .ok o))
        = some (.error (.UnexpectedResponse o)))
    ∧ ((∀ x ∈ l.results, x.isBlock = true) →
      (NotionApi.get_block_children block_id).run (fun _ => .ok (.List l))
        = .ok ⟨blockPayloads l.results, l.next_cursor, l.has_more⟩)
    ∧ (l.results = pre ++ bad :: post → (∀ x ∈ pre, x.isBlock = true) →
        bad.isBlock = false →
      (NotionApi.get_block_children block_id).run (fun _ => .ok (.List l))
        = .error (.UnexpectedResponse bad))
    ∧ (o.isList = false →
      (NotionApi.get_block_children block_id).run (fun _ => .ok o)
        = .error (.UnexpectedResponse o)) := by
  refine ⟨?_, ?_, ?_, ?_, ?_, ?_, ?_, ?_, ?_, ?_, ?_, ?_, ?_, ?_, ?_, ?_, ?_⟩
  · intro h; subst h; rfl
  · intro h
    cases o with
    | Database _ => simp [Object.isDatabase] at h
    | Page _ => rfl
    | Block _ => rfl
    | List _ => rfl
    | Error _ => rfl
  · intro h; subst h; rfl
  · intro h
    cases o with
    | Page _ => simp [Object.isPage] at h
    | Database _ => rfl
    | Block _ => rfl
    | List _ => rfl
    | Error _ => rfl
  · intro h; subst h; simp [NotionApi.search, hS, Prog.run]
  · intro h
    cases o with
    | List _ => simp [Object.isList] at h
    | Page _ => simp [NotionApi.search, hS, Prog.run]
    | Database _ => simp [NotionApi.search, hS, Prog.run]
    | Block _ => simp [NotionApi.search, hS, Prog.run]
    | Error _ => simp [NotionApi.search, hS, Prog.run]
  · intro h; subst h; simp [NotionApi.create_page, hP, Prog.run]
  · intro h
    cases o with
    | Page _ => simp [Object.isPage] at h
    | Database _ => simp [NotionApi.create_page, hP, Prog.run]
    | Block _ => simp [NotionApi.create_page, hP, Prog.run]
    | List _ => simp [NotionApi.create_page, hP, Prog.run]
    | Error _ => simp [NotionApi.create_page, hP, Prog.run]
  · intro hall
    have hex : expectAll Object.asDatabase l.results
        = .ok (l.results.filterMap Object.asDatabase) :=
      expectAll_eq_ok_of_forall _ _ fun x hx => asDatabase_isSome (hall x hx)
    simp [NotionApi.list_databases, Prog.run, ListResponse.expect_databases,
      hex, Except.map, databasePayloads]
  · intro hres hpre hbad
    have hex : expectAll Object.asDatabase l.results
        = .error (.UnexpectedResponse bad) := by
      rw [hres]
      exact expectAll_eq_err_first _ _ _ _
        (fun x hx => asDatabase_isSome (hpre x hx)) (asDatabase_eq_none hbad)
    simp [NotionApi.list_databases, Prog.run, ListResponse.expect_databases,
      hex, Except.map]
  · intro h
    cases o with
    | List _ => simp [Object.isList] at h
    | Page _ => rfl
    | Database _ => rfl
    | Block _ => rfl
    | Error _ => rfl
  · intro hall
    have hex : expectAll Object.asPage l.results
        = .ok (l.results.filterMap Object.asPage) :=
      expectAll_eq_ok_of_forall _ _ fun x hx => asPage_isSome (hall x hx)
    simp [NotionApi.query_database, hQ, Prog.run, ListResponse.expect_pages,
      hex, Except.map, pagePayloads]
  · intro hres hpre hbad
    have hex : expectAll Object.asPage l.results
        = .error (.UnexpectedResponse bad) := by
      rw [hres]
      exact expectAll_eq_err_first _ _ _ _
        (fun x hx => asPage_isSome (hpre x hx)) (asPage_eq_none hbad)
    simp [NotionApi.query_database, hQ, Prog.run, ListResponse.expect_pages,
      hex, Except.map]
  · intro h
    cases o with
    | List _ => simp [Object.isList] at h
    | Page _ => simp [NotionApi.query_database, hQ, Prog.run]
    | Database _ => simp [NotionApi.query_database, hQ, Prog.run]
    | Block _ => simp [NotionApi.query_database, hQ, Prog.run]
    | Error _ => simp [NotionApi.query_database, hQ, Prog.run]
  · intro hall
    have hex : expectAll Object.asBlock l.results
        = .ok (l.results.filterMap Object.asBlock) :=
      expectAll_eq_ok_of_forall _ _ fun x hx => asBlock_isSome (hall x hx)
    simp [NotionApi.get_block_children, Prog.run, ListResponse.expect_blocks,
      hex, Except.map, blockPayloads]
  · intro hres hpre hbad
    have hex : expectAll Object.asBlock l.results
        = .error (.UnexpectedResponse bad) := by
      rw [hres]
      exact expectAll_eq_err_first _ _ _ _
        (fun x hx => asBlock_isSome (hpre x hx)) (asBlock_eq_none hbad)
    simp [NotionApi.get_block_children, Prog.run, ListResponse.expect_blocks,
      hex, Except.map]
  · intro h
    cases o with
    | List _ => simp [Object.isList] at h
    | Page _ => rfl
    | Database _ => rfl
    | Block _ => rfl
    | Error _ => rfl

/-- C1 witness: the dispatch behavior at a concrete `Block` envelope (wrong
discriminant for every endpoint) and the empty list envelope (homogeneous
for all three list refinements). -/
theorem facade_expected_variant_dispatch_witness :
    (Object.Block ⟨"b"⟩ = Object.Database ⟨"d"⟩ →
      (NotionApi.get_database "db1").run (fun _ => .ok (Object.Block ⟨"b"⟩))
        = .ok ⟨"d"⟩)
    ∧ ((Object.Block ⟨"b"⟩).isDatabase = false →
      (NotionApi.get_database "db1").run (fun _ => .ok (Object.Block ⟨"b"⟩))
        = .error (.UnexpectedResponse (Object.Block ⟨"b"⟩)))
    ∧ (Object.Block ⟨"b"⟩ = Object.Page ⟨"p"⟩ →
      (NotionApi.get_page "pg1").run (fun _ => .ok (Object.Block ⟨"b"⟩))
        = .ok ⟨"p"⟩)
    ∧ ((Object.Block ⟨"b"⟩).isPage = false →
      (NotionApi.get_page "pg1").run (fun _ => .ok (Object.Block ⟨"b"⟩))
        = .error (.UnexpectedResponse (Object.Block ⟨"b"⟩)))
    ∧ (Object.Block ⟨"b"⟩ = Object.List ⟨[], none, true⟩ →
      (NotionApi.search (fun s => some s.data) ⟨"sq"⟩).map
          (Prog.run (fun _ => .ok (Object.Block ⟨"b"⟩)))
        = some (.ok ⟨[], none, true⟩))
    ∧ ((Object.Block ⟨"b"⟩).isList = false →
      (NotionApi.search (fun s => some s.data) ⟨"sq"⟩).map
          (Prog.run (fun _ => .ok (Object.Block ⟨"b"⟩)))
        = some (.error (.UnexpectedResponse (Object.Block ⟨"b"⟩))))
    ∧ (Object.Block ⟨"b"⟩ = Object.Page ⟨"p"⟩ →
      (NotionApi.create_page (fun s => some s.data) ⟨"pc"⟩).map
          (Prog.run (fun _ => .ok (Object.Block ⟨"b"⟩)))
        = some (.ok ⟨"p"⟩))
    ∧ ((Object.Block ⟨"b"⟩).isPage = false →
      (NotionApi.create_page (fun s => some s.data) ⟨"pc"⟩).map
          (Prog.run (fun _ => .ok (Object.Block ⟨"b"⟩)))
        = some (.error (.UnexpectedResponse (Object.Block ⟨"b"⟩))))
    ∧ ((∀ x ∈ (⟨[], none, true⟩ : ListResponse Object).results, x.isDatabase = true) →
      NotionApi.list_databases.run (fun _ => .ok (.List ⟨[], none, true⟩))
        = .ok ⟨databasePayloads [], none, true⟩)
    ∧ ((⟨[], none, true⟩ : ListResponse Object).results
          = [] ++ Object.Error ⟨"c", 400, "m"⟩ :: [] →
        (∀ x ∈ ([] : List Object), x.isDatabase = true) →
        (Object.Error ⟨"c", 400, "m"⟩).isDatabase = false →
      NotionApi.list_databases.run (fun _ => .ok (.List ⟨[], none, true⟩))
        = .error (.UnexpectedResponse (Object.Error ⟨"c", 400, "m"⟩)))
    ∧ ((Object.Block ⟨"b"⟩).isList = false →
      NotionApi.list_databases.run (fun _ => .ok (Object.Block ⟨"b"⟩))
        = .error (.UnexpectedResponse (Object.Block ⟨"b"⟩)))
    ∧ ((∀ x ∈ (⟨[], none, true⟩ : ListResponse Object).results, x.isPage = true) →
      (NotionApi.query_database (fun s => some s.data) "db1" ⟨"dq"⟩).map
          (Prog.run (fun _ => .ok (.List ⟨[], none, true⟩)))
        = some (.ok ⟨pagePayloads [], none, true⟩))
    ∧ ((⟨[], none, true⟩ : ListResponse Object).results
          = [] ++ Object.Error ⟨"c", 400, "m"⟩ :: [] →
        (∀ x ∈ ([] : List Object), x.isPage = true) →
        (Object.Error ⟨"c", 400, "m"⟩).isPage = false →
      (NotionApi.query_database (fun s => some s.data) "db1" ⟨"dq"⟩).map
          (Prog.run (fun _ => .ok (.List ⟨[], none, true⟩)))
        = some (.error (.UnexpectedResponse (Object.Error ⟨"c", 400, "m"⟩))))
    ∧ ((Object.Block ⟨"b"⟩).isList = false →
      (NotionApi.query_database (fun s => some s.data) "db1" ⟨"dq"⟩).map
          (Prog.run (fun _ => .ok (Object.Block ⟨"b"⟩)))
        = some (.error (.UnexpectedResponse (Object.Block ⟨"b"⟩))))
    ∧ ((∀ x ∈ (⟨[], none, true⟩ : ListResponse Object).results, x.isBlock = true) →
      (NotionApi.get_block_children "bk1").run (fun _ => .ok (.List ⟨[], none, true⟩))
        = .ok ⟨blockPayloads [], none, true⟩)
    ∧ ((⟨[], none, true⟩ : ListResponse Object).results
          = [] ++ Object.Error ⟨"c", 400, "m"⟩ :: [] →
        (∀ x ∈ ([] : List Object), x.isBlock = true) →
        (Object.Error ⟨"c", 400, "m"⟩).isBlock = false →
      (NotionApi.get_block_children "bk1").run (fun _ => .ok (.List ⟨[], none, true⟩))
        = .error (.UnexpectedResponse (Object.Error ⟨"c", 400, "m"⟩)))
    ∧ ((Object.Block ⟨"b"⟩).isList = false →
      (NotionApi.get_block_children "bk1").run (fun _ => .ok (Object.Block ⟨"b"⟩))
        = .error (.UnexpectedResponse (Object.Block ⟨"b"⟩))) :=
  facade_expected_variant_dispatch (Object.Block ⟨"b"⟩) ⟨"d"⟩ ⟨"p"⟩
    ⟨[], none, true⟩ [] [] (Object.Error ⟨"c", 400, "m"⟩) "db1" "pg1" "bk1"
    (fun s => some s.data) ⟨"sq"⟩ "sq" (fun s => some s.data) ⟨"pc"⟩ "pc"
    (fun s => some s.data) ⟨"dq"⟩ "dq" rfl rfl rfl

end Notion
